import Mathlib

/-!
Verification development for the stdio message-mirroring interceptor
(`src/stdio_server.py`) and the code-execution helpers
(`src/code_execution.py`).

The Python code is shallowly embedded: every dynamic member access that can
raise is modelled by an `Option` field (`none` = the call raises), the
process-wide sink socket is explicit state (`Option Unit`), and the outcome
of a `subprocess.run` invocation is an oracle function supplied as a
parameter.  All definitions are executable.
-/

/-- Decidable test for the ASCII whitespace characters removed by Python
`str.strip()` (space, tab, newline, carriage return, vertical tab, form
feed).  Python also strips some non-ASCII Unicode whitespace; the claims in
scope only involve ASCII, so the model is restricted to it. -/
def isPySpace (c : Char) : Bool :=
  c = ' ' || c = '\t' || c = '\n' || c = '\r' || c = Char.ofNat 11 || c = Char.ofNat 12

/-- Leading-whitespace removal, the first half of Python `str.strip()`. -/
def stripLeading (l : List Char) : List Char :=
  l.dropWhile isPySpace

/-- Trailing-whitespace removal, the second half of Python `str.strip()`. -/
def stripTrailing (l : List Char) : List Char :=
  (l.reverse.dropWhile isPySpace).reverse

/-- Python `str.strip()` on the character list: removes whitespace from BOTH
ends (leading and trailing). -/
def pyStripL (l : List Char) : List Char :=
  stripTrailing (stripLeading l)

/-- Python `str.strip()` on strings. -/
def pyStrip (s : String) : String :=
  String.mk (pyStripL s.data)

/-- The Unicode replacement character U+FFFD produced by
`bytes.decode("utf-8", errors="replace")` on invalid sequences. -/
def replChar : Char := Char.ofNat 0xFFFD

/-- Continuation byte test for UTF-8 (`0x80..0xBF`). -/
def isCont (n : Nat) : Bool := 128 ≤ n && n ≤ 191

/-- Second-byte restriction for a three-byte UTF-8 sequence led by `b1`:
rules out overlong encodings (lead `0xE0`) and surrogates (lead `0xED`). -/
def utf8Valid3 (b1 b2 : Nat) : Bool :=
  (b1 != 0xE0 || 0xA0 ≤ b2) && (b1 != 0xED || b2 ≤ 0x9F)

/-- Second-byte restriction for a four-byte UTF-8 sequence led by `b1`:
rules out overlong encodings (lead `0xF0`) and code points above U+10FFFF
(lead `0xF4`). -/
def utf8Valid4 (b1 b2 : Nat) : Bool :=
  (b1 != 0xF0 || 0x90 ≤ b2) && (b1 != 0xF4 || b2 ≤ 0x8F)

/-- Fuelled UTF-8 decoder with replacement: model of Python
`bytes.decode("utf-8", errors="replace")`.  Each step consumes at least one
byte and emits exactly one character, substituting `replChar` for bytes that
do not start a valid sequence.  The fuel is instantiated with the length of
the byte list, which suffices because at least one byte is consumed per
step. -/
def utf8Aux : Nat → List Nat → List Char
  | 0, _ => []
  | _ + 1, [] => []
  | fuel + 1, b :: rest =>
    if b ≤ 0x7F then
      Char.ofNat b :: utf8Aux fuel rest
    else if 0xC2 ≤ b && b ≤ 0xDF then
      match rest with
      | b2 :: r2 =>
        if isCont b2 then
          Char.ofNat ((b - 0xC0) * 64 + (b2 - 0x80)) :: utf8Aux fuel r2
        else
          replChar :: utf8Aux fuel rest
      | [] => replChar :: utf8Aux fuel rest
    else if 0xE0 ≤ b && b ≤ 0xEF then
      match rest with
      | b2 :: b3 :: r3 =>
        if isCont b2 && isCont b3 && utf8Valid3 b b2 then
          Char.ofNat ((b - 0xE0) * 4096 + (b2 - 0x80) * 64 + (b3 - 0x80)) :: utf8Aux fuel r3
        else
          replChar :: utf8Aux fuel rest
      | _ => replChar :: utf8Aux fuel rest
    else if 0xF0 ≤ b && b ≤ 0xF4 then
      match rest with
      | b2 :: b3 :: b4 :: r4 =>
        if isCont b2 && isCont b3 && isCont b4 && utf8Valid4 b b2 then
          Char.ofNat ((b - 0xF0) * 262144 + (b2 - 0x80) * 4096 + (b3 - 0x80) * 64 + (b4 - 0x80))
            :: utf8Aux fuel r4
        else
          replChar :: utf8Aux fuel rest
      | _ => replChar :: utf8Aux fuel rest
    else
      replChar :: utf8Aux fuel rest

/-- Model of Python `bytes.decode("utf-8", errors="replace")` on a byte
list: total, never raises. -/
def pyDecodeReplace (b : List Nat) : String :=
  String.mk (utf8Aux b.length b)

/-- Lowercase hexadecimal digit, as used in Python `repr` escapes. -/
def hexDigit (n : Nat) : Char :=
  if n < 10 then Char.ofNat (48 + n) else Char.ofNat (87 + n)

/-- Quote byte chosen by Python `repr(bytes)`: a double quote when the bytes
contain a single quote but no double quote, otherwise a single quote. -/
def bytesReprQuote (b : List Nat) : Nat :=
  if b.contains 39 && !(b.contains 34) then 34 else 39

/-- Escape of a single byte inside Python `repr(bytes)` with quote byte
`q`: backslash, tab, newline, carriage return and the quote character get
two-character escapes, other printable ASCII is literal, everything else
becomes a lowercase hex escape. -/
def byteEscape (q n : Nat) : List Char :=
  if n = 92 then ['\\', '\\']
  else if n = 9 then ['\\', 't']
  else if n = 10 then ['\\', 'n']
  else if n = 13 then ['\\', 'r']
  else if n = q then ['\\', Char.ofNat q]
  else if 32 ≤ n && n ≤ 126 then [Char.ofNat n]
  else ['\\', 'x', hexDigit (n / 16), hexDigit (n % 16)]

/-- Model of Python `str(b)` for a bytes value `b`, i.e. `repr(bytes)`:
`b` prefix, quote, escaped bytes, closing quote.  This is the text the
receive path mirrors for raw binary values (which fall through to the
`str(line)` branch there). -/
def bytesRepr (b : List Nat) : String :=
  String.mk ('b' :: Char.ofNat (bytesReprQuote b)
    :: ((b.map (byteEscape (bytesReprQuote b))).flatten ++ [Char.ofNat (bytesReprQuote b)]))

/-- Structured message envelope as probed by the interceptor's
`hasattr`/method-call chain.  A `Bool` field models the corresponding
`hasattr` test; an `Option String` field models the outcome of the
corresponding call (`some s` = the call returns the text `s`, `none` = the
call raises).

Fields, in the order the chain probes them:
* `hasMessageRoot` — `hasattr(x, "message") and hasattr(x.message, "root")`;
* `mrDumpJson` — `x.message.root.model_dump_json()`;
* `mrDumpsDump` — `json.dumps(x.message.root.model_dump())`;
* `hasRoot` — `hasattr(x, "root")`;
* `rDumpJson` — `x.root.model_dump_json()`;
* `rDumpsDump` — `json.dumps(x.root.model_dump())`;
* `hasDumpJson` — `hasattr(x, "model_dump_json")`;
* `dumpJson` — `x.model_dump_json()`;
* `hasDump` — `hasattr(x, "model_dump")`;
* `dumpsDump` — `json.dumps(x.model_dump())`;
* `strRepr` — `str(x)`;
* `truthy` — `bool(x)`. -/
structure Envelope where
  hasMessageRoot : Bool
  mrDumpJson : Option String
  mrDumpsDump : Option String
  hasRoot : Bool
  rDumpJson : Option String
  rDumpsDump : Option String
  hasDumpJson : Bool
  dumpJson : Option String
  hasDump : Bool
  dumpsDump : Option String
  strRepr : Option String
  truthy : Bool
deriving DecidableEq

/-- A message value flowing through the channel: plain text (`str`), raw
binary (`bytes`, as a list of byte values), or a structured object. -/
inductive Msg where
  | text (s : String)
  | binary (b : List Nat)
  | obj (e : Envelope)
deriving DecidableEq

/-- Python truthiness of a message value (`if line:` / `if data:`). -/
def Msg.truthy : Msg → Bool
  | .text s => !s.isEmpty
  | .binary b => !b.isEmpty
  | .obj e => e.truthy

/-- Structured-object branch shared by `logged_receive` and `logged_send`
(the `elif` chain after the `str`/`bytes` tests): `message.root` path with
`model_dump_json` then `json.dumps(model_dump())` fallback, then the `root`
path likewise, then direct `model_dump_json`, then `json.dumps(model_dump())`,
then `str`.  `.error ()` means a Python exception propagates out of the
chain: only the primary serialization of the two nested-root paths sits in
a `try`, so a raise from the fallback `json.dumps(model_dump())`, from the
direct `model_dump_json()`/`model_dump()` branches, or from `str()` is
uncaught. -/
def encodeObjChain (e : Envelope) : Except Unit String :=
  if e.hasMessageRoot then
    match e.mrDumpJson with
    | some s => .ok s
    | none =>
      match e.mrDumpsDump with
      | some s => .ok s
      | none => .error ()
  else if e.hasRoot then
    match e.rDumpJson with
    | some s => .ok s
    | none =>
      match e.rDumpsDump with
      | some s => .ok s
      | none => .error ()
  else if e.hasDumpJson then
    match e.dumpJson with
    | some s => .ok s
    | none => .error ()
  else if e.hasDump then
    match e.dumpsDump with
    | some s => .ok s
    | none => .error ()
  else
    match e.strRepr with
    | some s => .ok s
    | none => .error ()

/-- Structured-object branch of `logged_write`: it probes only
`model_dump_json`, `model_dump` and `str` (no nested-root paths). -/
def encodeObjChainWrite (e : Envelope) : Except Unit String :=
  if e.hasDumpJson then
    match e.dumpJson with
    | some s => .ok s
    | none => .error ()
  else if e.hasDump then
    match e.dumpsDump with
    | some s => .ok s
    | none => .error ()
  else
    match e.strRepr with
    | some s => .ok s
    | none => .error ()

/-- Payload text mirrored by `logged_receive` for a (truthy) value: a plain
string is `strip()`-ped (both ends); there is no `bytes` branch on the
receive side, so raw binary falls through the `hasattr` probes to the
`str(line)` branch and is mirrored as its `repr`; structured objects go
through the shared chain. -/
def encodeRecvLine (m : Msg) : Except Unit String :=
  match m with
  | .text s => .ok (pyStrip s)
  | .binary b => .ok (bytesRepr b)
  | .obj e => encodeObjChain e

/-- Payload text mirrored by `logged_send` for a (truthy) value: a plain
string is used untrimmed, raw binary is UTF-8-decoded with replacement,
structured objects go through the shared chain. -/
def encodeSendLine (m : Msg) : Except Unit String :=
  match m with
  | .text s => .ok s
  | .binary b => .ok (pyDecodeReplace b)
  | .obj e => encodeObjChain e

/-- Payload text mirrored by `logged_write` for a (truthy) value: like the
send side but with the shorter structured-object chain. -/
def encodeWriteLine (m : Msg) : Except Unit String :=
  match m with
  | .text s => .ok s
  | .binary b => .ok (pyDecodeReplace b)
  | .obj e => encodeObjChainWrite e

/-- Full line handed to `_tcp_write` on the receive path: direction tag
`INPUT: ` followed by the payload. -/
def encodeRecv (m : Msg) : Except Unit String :=
  (encodeRecvLine m).map (fun p => "INPUT: " ++ p)

/-- Full line handed to `_tcp_write` on the send path: direction tag
`OUTPUT: ` followed by the payload. -/
def encodeSend (m : Msg) : Except Unit String :=
  (encodeSendLine m).map (fun p => "OUTPUT: " ++ p)

/-- Full line handed to `_tcp_write` on the write path. -/
def encodeWrite (m : Msg) : Except Unit String :=
  (encodeWriteLine m).map (fun p => "OUTPUT: " ++ p)

/-- Effects and resulting state of one `_tcp_write` call.  The sink socket
(`_log_socket`, a process-global) is `Option Unit`: `some ()` = a live
connection is stored, `none` = unset. -/
structure TcpResult where
  sock' : Option Unit
  frames : List String
  errLines : List String
  attempts : Nat
deriving DecidableEq

/-- Model of `_get_log_socket()`: when no socket is stored, one connect
attempt is made (its success is the oracle `connectOk`); on failure the
global is cleared and `None` is returned.  A stored socket is returned as
is, with no connect attempt.  Result: (returned socket = new stored state,
number of connect attempts). -/
def get_log_socket (st : Option Unit) (connectOk : Bool) : Option Unit × Nat :=
  match st with
  | none => (if connectOk then some () else none, 1)
  | some u => (some u, 0)

/-- Model of `_tcp_write(message)`: obtain the socket via
`get_log_socket`; if one exists, try to send the frame
`"-----\n" + message + "\n"` (the write outcome is the oracle `writeOk`);
on write failure clear the stored socket and write `message + "\n"` to
stderr; with no socket, write to stderr.  Every exception path of the
source is caught, so the model is a total function: the caller never sees
an error. -/
def tcp_write (message : String) (st : Option Unit) (connectOk writeOk : Bool) : TcpResult :=
  match get_log_socket st connectOk with
  | (some _, n) =>
    if writeOk then
      ⟨some (), ["-----\n" ++ message ++ "\n"], [], n⟩
    else
      ⟨none, [], [message ++ "\n"], n⟩
  | (none, n) => ⟨none, [], [message ++ "\n"], n⟩

/-- Outcome of invoking one wrapped channel operation: the sink state and
effects produced by the mirroring, whether the delegated original
operation was executed, and the value seen by the caller (`.error ()` = an
uncaught Python exception from the mirroring logic propagates). -/
structure OpResult (α : Type) where
  sock' : Option Unit
  frames : List String
  errLines : List String
  attempts : Nat
  delegated : Bool
  result : Except Unit α

/-- Model of `logged_receive()`: the original receive runs first and
produces `m` (so `delegated` is always `true`); a truthy value is encoded
and mirrored via `tcp_write`, then `m` is returned.  If the encoding chain
raises, the exception propagates to the caller and the received value is
lost. -/
def logged_receive (m : Msg) (st : Option Unit) (connectOk writeOk : Bool) : OpResult Msg :=
  if m.truthy then
    match encodeRecv m with
    | .ok line =>
      match tcp_write line st connectOk writeOk with
      | ⟨s, f, e, n⟩ => ⟨s, f, e, n, true, .ok m⟩
    | .error _ => ⟨st, [], [], 0, true, .error ()⟩
  else
    ⟨st, [], [], 0, true, .ok m⟩

/-- Model of `logged_send(data)`: a truthy value is encoded and mirrored
BEFORE delegating to the original send, whose result `origRet` is then
returned.  If the encoding chain raises, the original send never runs. -/
def logged_send {α : Type} (m : Msg) (origRet : α) (st : Option Unit)
    (connectOk writeOk : Bool) : OpResult α :=
  if m.truthy then
    match encodeSend m with
    | .ok line =>
      match tcp_write line st connectOk writeOk with
      | ⟨s, f, e, n⟩ => ⟨s, f, e, n, true, .ok origRet⟩
    | .error _ => ⟨st, [], [], 0, false, .error ()⟩
  else
    ⟨st, [], [], 0, true, .ok origRet⟩

/-- Model of `logged_write(data)`: like `logged_send` but with the shorter
encoding chain. -/
def logged_write {α : Type} (m : Msg) (origRet : α) (st : Option Unit)
    (connectOk writeOk : Bool) : OpResult α :=
  if m.truthy then
    match encodeWrite m with
    | .ok line =>
      match tcp_write line st connectOk writeOk with
      | ⟨s, f, e, n⟩ => ⟨s, f, e, n, true, .ok origRet⟩
    | .error _ => ⟨st, [], [], 0, false, .error ()⟩
  else
    ⟨st, [], [], 0, true, .ok origRet⟩

/-- A receive stream as produced by a transport factory, abstracted to its
observable behaviour for one inbound value: the list of lines handed to
`_tcp_write` and the value returned to the caller. -/
def RecvStream : Type := Msg → List String × Msg

/-- The pristine transport's receive stream: no mirroring, value passed
through. -/
def baseRecv : RecvStream := fun m => ([], m)

/-- One mirroring layer around a receive stream, as `logged_stdio_server`
installs on the stream's `receive` method: after the original receive
returns `v`, a truthy `v` whose encoding succeeds is mirrored once. -/
def wrapRecv (orig : RecvStream) : RecvStream := fun m =>
  match orig m with
  | (ls, v) =>
    if v.truthy then
      match encodeRecv v with
      | .ok line => (ls ++ [line], v)
      | .error _ => (ls, v)
    else (ls, v)

/-- The module-level binding `original_stdio_server`, captured once at
module-import time, before the patch is installed: the pristine factory. -/
def original_stdio_server : RecvStream := baseRecv

/-- The replacement factory `logged_stdio_server`: always wraps the
streams of the captured `original_stdio_server`, never the current module
binding, so it carries exactly one mirroring layer by construction. -/
def logged_stdio_server : RecvStream := wrapRecv original_stdio_server

/-- The mutable module binding `stdio_module.stdio_server` targeted by the
monkey-patch. -/
structure StdioModule where
  stdio_server : RecvStream

/-- The installation step `stdio_module.stdio_server = logged_stdio_server`:
it overwrites the binding with the fixed wrapped factory, whatever the
binding held before. -/
def installLoggedServer : StdioModule → StdioModule :=
  fun _ => StdioModule.mk logged_stdio_server

/-- Result dictionary of the code-execution helpers: `returncode`,
`stdout`, `stderr`. -/
structure RunResult where
  returncode : Int
  stdout : String
  stderr : String
deriving DecidableEq

/-- Outcome of a `subprocess.run(cmd, capture_output=True, text=True,
timeout=10)` call, supplied by an oracle: the process completed with a
return code and raw captured output, or `subprocess.TimeoutExpired` was
raised. -/
inductive ProcOutcome where
  | completed (returncode : Int) (stdout : String) (stderr : String)
  | timedOut
deriving DecidableEq

/-- The subprocess invocation issued by `run_command`: the argument vector
and the `timeout=` value passed to `subprocess.run`. -/
structure Invocation where
  cmd : List String
  timeoutSeconds : Nat
deriving DecidableEq

/-- Model of `run_command(cmd)`: it issues `subprocess.run(cmd, ...,
timeout=10)`; on completion it returns the return code with `stdout` and
`stderr` `.strip()`-ped; on `TimeoutExpired` it catches the exception and
returns the fixed timeout dictionary.  Result: (invocation issued, returned
dictionary). -/
def run_command (cmd : List String) (os : List String → ProcOutcome) :
    Invocation × RunResult :=
  (⟨cmd, 10⟩,
    match os cmd with
    | .completed rc out err => ⟨rc, pyStrip out, pyStrip err⟩
    | .timedOut => ⟨-2, "", "Error: Execution timed out"⟩)

/-- Model of `install_dependencies(packages, pip_path)`: `if not packages`
(both `None` and the empty list) short-circuits to a zero no-op result,
otherwise `run_command([pip_path, "install"] + packages)`. -/
def install_dependencies (packages : Option (List String)) (pipPath : String)
    (os : List String → ProcOutcome) : RunResult :=
  match packages with
  | none => ⟨0, "", ""⟩
  | some [] => ⟨0, "", ""⟩
  | some ps => (run_command (pipPath :: "install" :: ps) os).2

/-- The statement `print('exp')` plus newline that `code_exec_python`
prepends to the caller's code in the non-temp-dir branch. -/
def expHeader : String := "print(" ++ "\x27" ++ "exp" ++ "\x27" ++ ")\n"

/-- Model of `code_exec_python(code, packages)` . The `config.USE_TEMP_DIR`
flag and, when it is set, the result of `run_in_tempdir` (out of scope for
the claims) are parameters.  In the non-temp-dir branch: install
dependencies with the default `pip`; on a non-zero install return code,
report the failure without running the code; otherwise run
`["python3", "-c", "print('exp')\n" + code]`.  Result: (the `python3 -c`
invocation issued, if any, and the returned dictionary). -/
def code_exec_python (code : String) (packages : Option (List String))
    (useTempDir : Bool) (tempdirResult : RunResult)
    (os : List String → ProcOutcome) : Option Invocation × RunResult :=
  if useTempDir then
    (none, tempdirResult)
  else
    let ir := install_dependencies packages "pip" os
    if ir.returncode ≠ 0 then
      (none, ⟨ir.returncode, ir.stdout, "Dependency install failed:\n" ++ ir.stderr⟩)
    else
      match run_command ["python3", "-c", expHeader ++ code] os with
      | (inv, res) => (some inv, res)

/-- Removing trailing whitespace commutes with prepending a non-whitespace
character. -/
theorem stripTrailing_cons_of_neg (c : Char) (l : List Char) (h : isPySpace c = false) :
    stripTrailing (c :: l) = c :: stripTrailing l := by
  unfold stripTrailing
  rw [List.reverse_cons, List.dropWhile_append]
  split
  · next hd =>
    rw [List.isEmpty_iff] at hd
    rw [hd, List.dropWhile_cons_of_neg (by simp [h])]
    simp
  · simp

/-- Python `strip()` keeps a leading `exp` intact: the three characters are
not whitespace, so only material after them can be removed. -/
theorem pyStripL_exp (l : List Char) :
    pyStripL ('e' :: 'x' :: 'p' :: l) = 'e' :: 'x' :: 'p' :: stripTrailing l := by
  unfold pyStripL stripLeading
  rw [List.dropWhile_cons_of_neg (by decide)]
  rw [stripTrailing_cons_of_neg _ _ (by decide), stripTrailing_cons_of_neg _ _ (by decide),
    stripTrailing_cons_of_neg _ _ (by decide)]

/-- A `strip()`-ped string that started with `exp` plus a newline still
starts with the three characters `exp`. -/
theorem pyStrip_exp_take (rest : String) :
    (pyStrip ("exp\n" ++ rest)).data.take 3 = ['e', 'x', 'p'] := by
  unfold pyStrip
  have hd : ("exp\n" ++ rest).data = 'e' :: 'x' :: 'p' :: '\n' :: rest.data := by
    rw [String.data_append]; rfl
  rw [hd, pyStripL_exp]
  rfl

/-- The replacement decoder emits at least one character per step, so a
non-empty byte list decodes to a non-empty character list. -/
theorem utf8Aux_cons_ne_nil (fuel b : Nat) (l : List Nat) :
    utf8Aux (fuel + 1) (b :: l) ≠ [] := by
  unfold utf8Aux
  repeat' split
  all_goals simp

/-- Non-empty bytes decode (with replacement) to a non-empty string. -/
theorem pyDecodeReplace_ne_empty (b : List Nat) (h : b ≠ []) : pyDecodeReplace b ≠ "" := by
  match b with
  | [] => exact absurd rfl h
  | x :: l =>
    unfold pyDecodeReplace
    intro hc
    exact utf8Aux_cons_ne_nil l.length x l (congrArg String.data hc)

/-- The `repr` of a bytes value always starts with `b`, hence is never
empty. -/
theorem bytesRepr_ne_empty (b : List Nat) : bytesRepr b ≠ "" := by
  unfold bytesRepr
  intro hc
  exact List.noConfusion (congrArg String.data hc)

/-- C3 counterexample: the frame actually written for the line `x` is
`"-----\nx\n"` — a separator of FIVE dashes — not the claimed
`"----\n" + line + "\n"` with four dashes. -/
theorem frame_not_four_dashes :
    (tcp_write "x" (some ()) true true).frames = ["-----\nx\n"] ∧
    ("-----\nx\n" : String) ≠ "----\n" ++ "x" ++ "\n" :=
  ⟨rfl, by decide⟩

/-- C3 (amended): for every mirrored line written over a live sink
connection, the bytes sent to the socket are exactly the frame
`"-----\n" + line + "\n"` (FIVE dashes, a newline, the line, a newline);
and no call of the send primitive ever writes anything else to the
socket. -/
theorem sink_frame_five_dashes (line : String) (st : Option Unit) (c w : Bool) :
    (tcp_write line (some ()) c true).frames = ["-----\n" ++ line ++ "\n"] ∧
    ((tcp_write line st c w).frames = [] ∨
      (tcp_write line st c w).frames = ["-----\n" ++ line ++ "\n"]) := by
  refine ⟨rfl, ?_⟩
  unfold tcp_write get_log_socket
  cases st <;> cases c <;> cases w <;> simp

/-- C4 counterexample: a received string with LEADING whitespace is mirrored
with that whitespace removed (`str.strip()` trims both ends), so the
mirrored line for `" ping"` is `"INPUT: ping"`, not the claimed
`"INPUT: " + " ping"`. -/
theorem leading_whitespace_stripped_on_recv :
    encodeRecv (Msg.text " ping") = Except.ok "INPUT: ping" ∧
    ("INPUT: ping" : String) ≠ "INPUT: " ++ " ping" :=
  ⟨rfl, by decide⟩

/-- C4 (amended): a received plain string is mirrored as `INPUT: ` followed
by the string with BOTH leading and trailing whitespace removed (Python
`str.strip()`), while a sent plain string is mirrored untrimmed. -/
theorem text_trimming_both_ends (s : String) :
    encodeRecv (Msg.text s) = Except.ok ("INPUT: " ++ pyStrip s) ∧
    encodeSend (Msg.text s) = Except.ok ("OUTPUT: " ++ s) ∧
    encodeWrite (Msg.text s) = Except.ok ("OUTPUT: " ++ s) ∧
    pyStrip s = String.mk (stripTrailing (stripLeading s.data)) ∧
    pyStrip "  ping  " = "ping" :=
  ⟨rfl, rfl, rfl, rfl, by decide⟩

/-- C6: when a write to an existing sink connection fails, the stored
connection is cleared, the current line goes to stderr (with its newline)
rather than being dropped, nothing reaches the socket, and the next call —
starting from the cleared state — makes exactly one fresh connect attempt;
moreover on ANY call over a live connection the line ends up either on the
socket or on stderr.  `tcp_write` is a total function: every exception
path of `_tcp_write`/`_get_log_socket` is caught in the source, so the
primitive never raises to its caller. -/
theorem sink_write_failure_recovery (m m2 : String) (c c2 w2 w : Bool) :
    (tcp_write m (some ()) c false).sock' = none ∧
    (tcp_write m (some ()) c false).errLines = [m ++ "\n"] ∧
    (tcp_write m (some ()) c false).frames = [] ∧
    (tcp_write m2 none c2 w2).attempts = 1 ∧
    ((tcp_write m (some ()) c w).frames ≠ [] ∨
      (tcp_write m (some ()) c w).errLines = [m ++ "\n"]) := by
  refine ⟨rfl, rfl, rfl, ?_, ?_⟩
  · cases c2 <;> cases w2 <;> rfl
  · cases w
    · exact Or.inr rfl
    · exact Or.inl (by simp [tcp_write, get_log_socket])

/-- C10: `run_command` passes `timeout=10` to the subprocess call; on
`TimeoutExpired` it returns exactly the fixed timeout dictionary instead of
raising; on completion it returns the subprocess return code with stdout
and stderr stripped of surrounding whitespace. -/
theorem run_command_timeout_contract (cmd : List String) (os : List String → ProcOutcome) :
    (run_command cmd os).1 = ⟨cmd, 10⟩ ∧
    (os cmd = ProcOutcome.timedOut →
      (run_command cmd os).2 = ⟨-2, "", "Error: Execution timed out"⟩) ∧
    (∀ rc out err, os cmd = ProcOutcome.completed rc out err →
      (run_command cmd os).2 = ⟨rc, pyStrip out, pyStrip err⟩) := by
  refine ⟨rfl, ?_, ?_⟩
  · intro h
    simp [run_command, h]
  · intro rc out err h
    simp [run_command, h]

/-- C10 witness: a timed-out command yields the fixed timeout dictionary. -/
theorem run_command_timeout_contract_witness :
    (run_command ["sleep"] (fun _ => ProcOutcome.timedOut)).2 =
      ⟨-2, "", "Error: Execution timed out"⟩ :=
  (run_command_timeout_contract ["sleep"] (fun _ => ProcOutcome.timedOut)).2.1 rfl

/-- C1 counterexample: a structured value whose nested
`message.root.model_dump_json()` raises AND whose fallback
`json.dumps(model_dump())` also raises makes the send wrapper raise before
delegating — the original send never executes and the error surfaces to
the caller (the fallback call sits inside the bare `except:` handler with
no further protection). -/
theorem send_encoding_failure_blocks_delegation :
    (logged_send
      (Msg.obj ⟨true, none, none, false, none, none, false, none, false, none, none, true⟩)
      (0 : Nat) none true true).delegated = false ∧
    (logged_send
      (Msg.obj ⟨true, none, none, false, none, none, false, none, false, none, none, true⟩)
      (0 : Nat) none true true).result = Except.error () :=
  ⟨rfl, rfl⟩

/-- C1 (amended): failures of the sink connection manager are fully
isolated — whether the connect or the socket write succeeds has no
influence on whether the original operation runs or on the value the
caller sees — and whenever the encoding chain itself succeeds, the
wrapped send/write delegates and returns the original result and the
wrapped receive returns the received value; the original receive always
executes (it runs before the mirroring).  Only a raise from the encoding
chain (see the counterexample) can block delegation or surface. -/
theorem mirroring_fault_isolated {α : Type} (m : Msg) (r : α) (st : Option Unit)
    (c w c2 w2 : Bool) :
    ((logged_send m r st c w).delegated = (logged_send m r st c2 w2).delegated ∧
      (logged_send m r st c w).result = (logged_send m r st c2 w2).result) ∧
    (logged_receive m st c w).delegated = true ∧
    (∀ line, encodeSend m = Except.ok line →
      (logged_send m r st c w).delegated = true ∧
        (logged_send m r st c w).result = Except.ok r) ∧
    (∀ line, encodeRecv m = Except.ok line →
      (logged_receive m st c w).result = Except.ok m) ∧
    (∀ line, encodeWrite m = Except.ok line →
      (logged_write m r st c w).delegated = true ∧
        (logged_write m r st c w).result = Except.ok r) := by
  cases hm : m.truthy <;>
    cases he : encodeSend m <;>
      cases hr : encodeRecv m <;>
        cases hw : encodeWrite m <;>
          simp [logged_send, logged_receive, logged_write, hm, he, hr, hw]

/-- C1 witness: with an unreachable sink (connect and write both failing),
a plain-text send still delegates and returns the original result. -/
theorem mirroring_fault_isolated_witness :
    (logged_send (Msg.text "hi") (0 : Nat) none false false).delegated = true ∧
    (logged_send (Msg.text "hi") (0 : Nat) none false false).result = Except.ok 0 :=
  (mirroring_fault_isolated (Msg.text "hi") 0 none false false false false).2.2.1
    "OUTPUT: hi" rfl

/-- C2 counterexample: for a structured value whose `root` serializations
both raise, the wrapped receive does not return the value the unwrapped
receive returned — the mirroring exception propagates instead, so the
wrapped and unwrapped results differ. -/
theorem recv_encoding_failure_drops_value :
    (logged_receive
      (Msg.obj ⟨false, none, none, true, none, none, false, none, false, none, none, true⟩)
      none true true).result = Except.error () ∧
    (Except.error () : Except Unit Msg) ≠ Except.ok
      (Msg.obj ⟨false, none, none, true, none, none, false, none, false, none, none, true⟩) :=
  ⟨rfl, fun h => Except.noConfusion h⟩

/-- C2 (amended): the wrapped operations never modify the value — whenever
the wrapped send/write returns a value it is exactly the original
operation's result, and whenever the wrapped receive returns a value it is
exactly the value the original receive produced; for the inputs whose
encoding raises (see the counterexample) the wrapped operation raises
instead of returning. -/
theorem wrapped_ops_value_preserving {α : Type} (m : Msg) (r : α) (st : Option Unit)
    (c w : Bool) :
    (∀ v, (logged_send m r st c w).result = Except.ok v → v = r) ∧
    (∀ v, (logged_receive m st c w).result = Except.ok v → v = m) ∧
    (∀ v, (logged_write m r st c w).result = Except.ok v → v = r) := by
  cases hm : m.truthy <;>
    cases he : encodeSend m <;>
      cases hr : encodeRecv m <;>
        cases hw : encodeWrite m <;>
          simp [logged_send, logged_receive, logged_write, hm, he, hr, hw]

/-- C2 witness: a concrete wrapped send that completes returns the original
result unchanged. -/
theorem wrapped_ops_value_preserving_witness : (5 : Nat) = 5 :=
  (wrapped_ops_value_preserving (Msg.text "a") 5 none true true).1 5 rfl

/-- C5 counterexample: a structured value exposing a direct
`model_dump_json` whose call raises makes the encoder raise in both
directions (the branch is not wrapped in any `try`), so the encoder is not
total over the envelope variants. -/
theorem encoder_can_throw :
    encodeRecv
      (Msg.obj ⟨false, none, none, false, none, none, true, none, false, none, none, true⟩) =
      Except.error () ∧
    encodeSend
      (Msg.obj ⟨false, none, none, false, none, none, true, none, false, none, none, true⟩) =
      Except.error () :=
  ⟨rfl, rfl⟩

/-- C5 (amended): for plain-text and raw-binary values the encoder never
throws in either direction and yields the payload exactly: text is passed
through (`strip()`-ped on the receive side), raw binary is decoded as
UTF-8 with replacement characters on the send and write sides but is
coerced to its `repr` text on the receive side (which has no `bytes`
branch); non-empty binary yields a non-empty payload; a structured value
whose selected strategy succeeds yields that strategy's output; and the
spec's scenario bytes `b"\xff\xfehello"` decode to two replacement
characters followed by `hello`. -/
theorem encoder_total_text_binary (s : String) (b : List Nat) (e : Envelope) (j : String) :
    encodeSendLine (Msg.text s) = Except.ok s ∧
    encodeRecvLine (Msg.text s) = Except.ok (pyStrip s) ∧
    encodeSendLine (Msg.binary b) = Except.ok (pyDecodeReplace b) ∧
    encodeWriteLine (Msg.binary b) = Except.ok (pyDecodeReplace b) ∧
    encodeRecvLine (Msg.binary b) = Except.ok (bytesRepr b) ∧
    (b ≠ [] → pyDecodeReplace b ≠ "") ∧
    bytesRepr b ≠ "" ∧
    (e.hasMessageRoot = true → e.mrDumpJson = some j → encodeObjChain e = Except.ok j) ∧
    pyDecodeReplace [255, 254, 104, 101, 108, 108, 111] =
      String.mk [replChar, replChar, 'h', 'e', 'l', 'l', 'o'] := by
  refine ⟨rfl, rfl, rfl, rfl, rfl, pyDecodeReplace_ne_empty b, bytesRepr_ne_empty b, ?_, rfl⟩
  intro hmr hj
  simp [encodeObjChain, hmr, hj]

/-- C5 witness: a one-byte invalid sequence decodes non-empty, and a
structured value with a succeeding nested serialization encodes to its
output. -/
theorem encoder_total_text_binary_witness :
    pyDecodeReplace [255] ≠ "" ∧
    encodeObjChain ⟨true, some "z", none, false, none, none, false, none, false, none, none,
      true⟩ = Except.ok "z" :=
  ⟨((encoder_total_text_binary "" [255]
        ⟨true, some "z", none, false, none, none, false, none, false, none, none, true⟩
        "z").2.2.2.2.2.1) (by decide),
    ((encoder_total_text_binary "" [255]
        ⟨true, some "z", none, false, none, none, false, none, false, none, none, true⟩
        "z").2.2.2.2.2.2.2.1) rfl rfl⟩

/-- C7: a falsy message value (empty string, empty bytes, falsy object) is
never mirrored — no socket frame, no stderr line, no connect attempt, and
the sink state is untouched — while the value is still delegated /
returned unchanged on all three paths. -/
theorem falsy_never_mirrored {α : Type} (m : Msg) (r : α) (st : Option Unit) (c w : Bool)
    (h : m.truthy = false) :
    logged_receive m st c w = ⟨st, [], [], 0, true, Except.ok m⟩ ∧
    logged_send m r st c w = ⟨st, [], [], 0, true, Except.ok r⟩ ∧
    logged_write m r st c w = ⟨st, [], [], 0, true, Except.ok r⟩ := by
  refine ⟨?_, ?_, ?_⟩ <;> simp [logged_receive, logged_send, logged_write, h]

/-- C7 witness: the empty string is passed through without any mirroring
effect. -/
theorem falsy_never_mirrored_witness :
    logged_send (Msg.text "") (0 : Nat) none true true = ⟨none, [], [], 0, true, Except.ok 0⟩ :=
  (falsy_never_mirrored (Msg.text "") 0 none true true rfl).2.1

/-- C8: the monkey-patch installation is idempotent — running the
assignment `stdio_module.stdio_server = logged_stdio_server` a second time
leaves the module in the same state, because `logged_stdio_server` always
wraps the `original_stdio_server` binding captured once at import, never
the current module binding — and however many times the installation is
applied, a receive through the installed factory hands each message to the
sink at most once (never twice). -/
theorem install_idempotent_single_mirror (n : Nat) (st : StdioModule) (m : Msg) :
    installLoggedServer (installLoggedServer st) = installLoggedServer st ∧
    ((installLoggedServer^[n + 1] st).stdio_server m).1.length ≤ 1 := by
  refine ⟨rfl, ?_⟩
  have h : installLoggedServer^[n + 1] st = installLoggedServer st := by
    rw [Function.iterate_succ_apply']
    rfl
  rw [h]
  show ((wrapRecv original_stdio_server) m).1.length ≤ 1
  unfold wrapRecv original_stdio_server baseRecv
  cases hm : m.truthy <;> simp [hm]
  cases he : encodeRecv m <;> simp

/-- C9: with the temp-dir mode disabled and the dependency install
succeeding, `code_exec_python` does not run the caller's code verbatim: the
program handed to `python3 -c` is `print('exp')\n` prepended to the code
(which always differs from the code itself), and whenever that program
completes with raw stdout beginning with the line `exp` — which is what
running the prepended print first produces — the reported (stripped) stdout
still begins with the three characters `exp`. -/
theorem code_exec_prepends_exp (code : String) (packages : Option (List String))
    (td : RunResult) (os : List String → ProcOutcome)
    (hInstall : (install_dependencies packages "pip" os).returncode = 0) :
    (code_exec_python code packages false td os).1 =
      some ⟨["python3", "-c", expHeader ++ code], 10⟩ ∧
    expHeader ++ code ≠ code ∧
    (∀ rc rest err,
      os ["python3", "-c", expHeader ++ code] = ProcOutcome.completed rc ("exp\n" ++ rest) err →
      (code_exec_python code packages false td os).2.stdout.data.take 3 = ['e', 'x', 'p']) := by
  refine ⟨?_, ?_, ?_⟩
  · simp [code_exec_python, hInstall, run_command]
  · intro h
    have hlen := congrArg String.length h
    rw [String.length_append] at hlen
    have h13 : expHeader.length = 13 := by decide
    omega
  · intro rc rest err h
    simp [code_exec_python, hInstall, run_command, h]
    exact pyStrip_exp_take rest

/-- C9 witness: the empty program with no packages, completing with raw
stdout `exp\n`, reports a stdout beginning with `exp`. -/
theorem code_exec_prepends_exp_witness :
    (code_exec_python "" none false ⟨0, "", ""⟩
      (fun _ => ProcOutcome.completed 0 "exp\n" "")).2.stdout.data.take 3 = ['e', 'x', 'p'] :=
  (code_exec_prepends_exp "" none ⟨0, "", ""⟩ (fun _ => ProcOutcome.completed 0 "exp\n" "")
    rfl).2.2 0 "" "" (by decide)
